import Mathlib

/-!
Shallow embedding of the onrobot-rg repository: `src/onrobot.py` (class `RG`)
and `src/demo.py`.

The Modbus transport is modelled as `client : Nat → Nat`, mapping a holding
register address to the 16-bit value a single-register read returns.  Every
operation of the two modules is embedded as a function returning the list of
transactions it issues through the pymodbus client (and its return value,
for the getters).  Register values are `Nat`; the `/10.0` unit conversions
of the source are carried out exactly in `ℚ`.
-/

/-- A transaction (or demo-level effect) issued through the pymodbus client:
single/multi register reads and writes with address, value(s) and slave unit
id, plus the demo's `time.sleep` and `client.close()` calls. -/
inductive Tx where
  | read_holding_registers (address count unit : Nat)
  | write_register (address value unit : Nat)
  | write_registers (address : Nat) (values : List Nat) (unit : Nat)
  | sleep (seconds : ℚ)
  | close
  deriving DecidableEq

/-- Bit `i` of the natural number `v` (0 or 1).  This is what the source's
`format(v, '016b')` followed by indexing `status[-(i+1)]` and `int(...)`
computes for a 16-bit register value. -/
def bit (v i : Nat) : Nat := v / 2 ^ i % 2

/-- Attribute state of an `RG` instance right after `__init__` returns:
which attributes got assigned, and whether `open_connection` ran. -/
structure RGState where
  clientSet : Bool
  gripper : Option String
  max_width : Option Nat
  max_force : Option Nat
  connectionOpened : Bool
  deriving DecidableEq

/-- Embedding of `RG.__init__(gripper, ip, port)`: the `ModbusClient` is
constructed first; an unrecognized gripper string prints a message and
returns early, leaving `gripper`/`max_width`/`max_force` unassigned and the
connection unopened.  Returns the attribute state and the printed lines. -/
def RG.init (gripper : String) : RGState × List String :=
  let s : RGState :=
    { clientSet := true, gripper := none, max_width := none,
      max_force := none, connectionOpened := false }
  if gripper ∉ ["rg2", "rg6"] then
    (s, ["Please specify either rg2 or rg6."])
  else
    let s := { s with gripper := some gripper }
    let s :=
      if gripper = "rg2" then
        { s with max_width := some 1100, max_force := some 400 }
      else if gripper = "rg6" then
        { s with max_width := some 1600, max_force := some 1200 }
      else s
    ({ s with connectionOpened := true }, [])

/-- Embedding of `RG.get_fingertip_offset`: reads register 258 and returns
`registers[0] / 10.0` — note the source performs no two's-complement
conversion despite its docstring. -/
def RG.get_fingertip_offset (client : Nat → Nat) : List Tx × ℚ :=
  let raw := client 258
  ([Tx.read_holding_registers 258 1 65], (raw : ℚ) / 10)

/-- Embedding of `RG.get_width`: reads register 267, divides by 10. -/
def RG.get_width (client : Nat → Nat) : List Tx × ℚ :=
  let raw := client 267
  ([Tx.read_holding_registers 267 1 65], (raw : ℚ) / 10)

/-- Embedding of `RG.get_width_with_offset`: reads register 275, divides
by 10. -/
def RG.get_width_with_offset (client : Nat → Nat) : List Tx × ℚ :=
  let raw := client 275
  ([Tx.read_holding_registers 275 1 65], (raw : ℚ) / 10)

/-- Status decode of `RG.get_status` as a function of the seven low bits
`int(status[-1]) .. int(status[-7])` of the register value: a list of seven
zeros, with entry `i` set to 1 by an independent `if` when bit `i` is
nonzero. -/
def RG.decode_status (b0 b1 b2 b3 b4 b5 b6 : Nat) : List Nat :=
  let status_list : List Nat := [0, 0, 0, 0, 0, 0, 0]
  let status_list := if b0 ≠ 0 then status_list.set 0 1 else status_list
  let status_list := if b1 ≠ 0 then status_list.set 1 1 else status_list
  let status_list := if b2 ≠ 0 then status_list.set 2 1 else status_list
  let status_list := if b3 ≠ 0 then status_list.set 3 1 else status_list
  let status_list := if b4 ≠ 0 then status_list.set 4 1 else status_list
  let status_list := if b5 ≠ 0 then status_list.set 5 1 else status_list
  let status_list := if b6 ≠ 0 then status_list.set 6 1 else status_list
  status_list

/-- Embedding of `RG.get_status`: reads register 268 and decodes bits 0–6
into the seven flags with independent `if` statements. -/
def RG.get_status (client : Nat → Nat) : List Tx × List Nat :=
  let raw := client 268
  ([Tx.read_holding_registers 268 1 65],
   RG.decode_status (bit raw 0) (bit raw 1) (bit raw 2) (bit raw 3)
     (bit raw 4) (bit raw 5) (bit raw 6))

/-- Embedding of `RG.set_control_mode`: one write of `command` to
register 2. -/
def RG.set_control_mode (command : Nat) : List Tx :=
  [Tx.write_register 2 command 65]

/-- Embedding of `RG.set_target_force`: one write to register 0. -/
def RG.set_target_force (force_val : Nat) : List Tx :=
  [Tx.write_register 0 force_val 65]

/-- Embedding of `RG.set_target_width`: one write to register 1. -/
def RG.set_target_width (width_val : Nat) : List Tx :=
  [Tx.write_register 1 width_val 65]

/-- Embedding of `RG.close_gripper` (source default `force_val=400`): one
multi-register write of `[force_val, 0, 16]` starting at address 0. -/
def RG.close_gripper (force_val : Nat) : List Tx :=
  [Tx.write_registers 0 [force_val, 0, 16] 65]

/-- Embedding of `RG.open_gripper` (source default `force_val=400`):
`self.max_width` is passed explicitly; one multi-register write of
`[force_val, max_width, 16]` starting at address 0. -/
def RG.open_gripper (max_width force_val : Nat) : List Tx :=
  [Tx.write_registers 0 [force_val, max_width, 16] 65]

/-- Embedding of `RG.move_gripper` (source default `force_val=400`): one
multi-register write of `[force_val, width_val, 16]` starting at
address 0. -/
def RG.move_gripper (width_val force_val : Nat) : List Tx :=
  [Tx.write_registers 0 [force_val, width_val, 16] 65]

/-- Effect of one transaction on the holding-register state: reads, sleeps
and close leave it unchanged; a single-register write updates one address; a
multi-register write updates `values.length` consecutive addresses. -/
def applyTx (s : Nat → Nat) : Tx → Nat → Nat
  | Tx.read_holding_registers _ _ _, r => s r
  | Tx.write_register a v _, r => if r = a then v else s r
  | Tx.write_registers a vs _, r =>
      if a ≤ r ∧ r < a + vs.length then vs.getD (r - a) 0 else s r
  | Tx.sleep _, r => s r
  | Tx.close, r => s r

/-- Register state after a whole transaction trace. -/
def applyTrace (s : Nat → Nat) (txs : List Tx) : Nat → Nat :=
  txs.foldl applyTx s

/-- Status decode of the demo module's `get_status` as a function of the
seven low bits: same list but the source uses an `elif` chain, so only the
lowest-indexed nonzero bit sets its flag. -/
def demo.decode_status (b0 b1 b2 b3 b4 b5 b6 : Nat) : List Nat :=
  let status_list : List Nat := [0, 0, 0, 0, 0, 0, 0]
  if b0 ≠ 0 then status_list.set 0 1
  else if b1 ≠ 0 then status_list.set 1 1
  else if b2 ≠ 0 then status_list.set 2 1
  else if b3 ≠ 0 then status_list.set 3 1
  else if b4 ≠ 0 then status_list.set 4 1
  else if b5 ≠ 0 then status_list.set 5 1
  else if b6 ≠ 0 then status_list.set 6 1
  else status_list

/-- Embedding of the demo module's `get_status(client)`. -/
def demo.get_status (client : Nat → Nat) : List Tx × List Nat :=
  let raw := client 268
  ([Tx.read_holding_registers 268 1 65],
   demo.decode_status (bit raw 0) (bit raw 1) (bit raw 2) (bit raw 3)
     (bit raw 4) (bit raw 5) (bit raw 6))

/-- Embedding of the demo module's `get_width_with_offset(client)`. -/
def demo.get_width_with_offset (client : Nat → Nat) : List Tx × ℚ :=
  let raw := client 275
  ([Tx.read_holding_registers 275 1 65], (raw : ℚ) / 10)

/-- Embedding of the demo module's `easy_control(client, command)`: one
write of `command` to register 2. -/
def demo.easy_control (command : Nat) : List Tx :=
  [Tx.write_register 2 command 65]

/-- Embedding of the demo module's `set_target_force(client, force_val)`:
writes register 0, then calls `easy_control(client, 16)`. -/
def demo.set_target_force (force_val : Nat) : List Tx :=
  [Tx.write_register 0 force_val 65] ++ demo.easy_control 16

/-- Embedding of the demo module's `set_target_width(client, width_val)`:
writes register 1, then calls `easy_control(client, 16)`. -/
def demo.set_target_width (width_val : Nat) : List Tx :=
  [Tx.write_register 1 width_val 65] ++ demo.easy_control 16

/-- Embedding of the demo module's `run_demo` body after the client is
connected: one `get_status` check; if its busy flag is 0, read the width
with offset, command width 1600, `time.sleep(1.0)`, command width 0; then
`client.close()`. -/
def demo.run_demo (client : Nat → Nat) : List Tx :=
  let st := demo.get_status client
  (if st.2.getD 0 0 = 0 then
    st.1 ++ (demo.get_width_with_offset client).1
      ++ demo.set_target_width 1600 ++ [Tx.sleep 1] ++ demo.set_target_width 0
  else
    st.1) ++ [Tx.close]

/-- Signed 16-bit reinterpretation of a raw register value (two's
complement). -/
def toSigned16 (v : Nat) : Int :=
  if v < 32768 then (v : Int) else (v : Int) - 65536

/-- Modelled from the spec's words, for comparison with the source's
`RG.get_fingertip_offset`: interpret the raw register value as a signed
16-bit two's-complement tenths-of-millimeter quantity and divide the signed
value by 10. -/
def spec_fingertip_offset (raw : Nat) : ℚ :=
  ((toSigned16 raw : ℤ) : ℚ) / 10

/-! Helper lemmas about the status decodes. -/

lemma bit_lt_two (v i : Nat) : bit v i < 2 :=
  Nat.mod_lt _ (by norm_num)

lemma RG.decode_status_eq_bits : ∀ b0 < 2, ∀ b1 < 2, ∀ b2 < 2, ∀ b3 < 2,
    ∀ b4 < 2, ∀ b5 < 2, ∀ b6 < 2,
    RG.decode_status b0 b1 b2 b3 b4 b5 b6 = [b0, b1, b2, b3, b4, b5, b6] := by
  intro b0 hb0 b1 hb1 b2 hb2 b3 hb3 b4 hb4 b5 hb5 b6 hb6
  interval_cases b0 <;> interval_cases b1 <;> interval_cases b2 <;>
    interval_cases b3 <;> interval_cases b4 <;> interval_cases b5 <;>
    interval_cases b6 <;> rfl

lemma RG.decode_status_bit (v : Nat) :
    RG.decode_status (bit v 0) (bit v 1) (bit v 2) (bit v 3) (bit v 4)
      (bit v 5) (bit v 6)
      = [bit v 0, bit v 1, bit v 2, bit v 3, bit v 4, bit v 5, bit v 6] :=
  RG.decode_status_eq_bits _ (bit_lt_two v 0) _ (bit_lt_two v 1)
    _ (bit_lt_two v 2) _ (bit_lt_two v 3) _ (bit_lt_two v 4)
    _ (bit_lt_two v 5) _ (bit_lt_two v 6)

lemma bits_getD (v : Nat) : ∀ i < 7,
    [bit v 0, bit v 1, bit v 2, bit v 3, bit v 4, bit v 5, bit v 6].getD i 0
      = bit v i := by
  intro i hi
  interval_cases i <;> rfl

/-- C1: the claim says `get_fingertip_offset` decodes raw 32768 as a signed
two's-complement value to -3276.8; the source divides the raw register value
by 10 with no sign conversion, returning +3276.8 there, diverging from the
spec-modelled signed decode (and from the source's own docstring, which
calls the value signed two's complement). -/
theorem C1_fingertip_offset_unsigned :
    (RG.get_fingertip_offset (fun _ => 32768)).2 = 16384 / 5
    ∧ spec_fingertip_offset 32768 = -(16384 / 5)
    ∧ (RG.get_fingertip_offset (fun _ => 32768)).2 ≠ spec_fingertip_offset 32768 := by
  refine ⟨by norm_num [RG.get_fingertip_offset], ?_, ?_⟩
  · norm_num [spec_fingertip_offset, toSigned16]
  · norm_num [RG.get_fingertip_offset, spec_fingertip_offset, toSigned16]

/-- C3: `close_gripper f`, `open_gripper mw f` and `move_gripper w f` each
issue a single multi-register write of `[force, width, 16]` starting at
address 0, where `open_gripper` uses the profile's `max_width` (1600 on rg6)
and `close_gripper` uses width 0; with the source's default force 400,
`open_gripper` on rg6 writes `[400, 1600, 16]`. -/
theorem C3_compound_grip_writes (f w mw : Nat) :
    RG.close_gripper f = [Tx.write_registers 0 [f, 0, 16] 65]
    ∧ RG.open_gripper mw f = [Tx.write_registers 0 [f, mw, 16] 65]
    ∧ RG.move_gripper w f = [Tx.write_registers 0 [f, w, 16] 65]
    ∧ (RG.init "rg6").1.max_width = some 1600
    ∧ RG.open_gripper 1600 400 = [Tx.write_registers 0 [400, 1600, 16] 65] :=
  ⟨rfl, rfl, rfl, rfl, rfl⟩

/-- C6: for every raw register value in [0, 65535], `get_width` reads
register 267 and returns exactly the raw value divided by 10, and
`get_width_with_offset` reads register 275 with the same conversion; neither
subtracts any bias. -/
theorem C6_width_decode (client : Nat → Nat)
    (h267 : client 267 ≤ 65535) (h275 : client 275 ≤ 65535) :
    RG.get_width client
      = ([Tx.read_holding_registers 267 1 65], (client 267 : ℚ) / 10)
    ∧ RG.get_width_with_offset client
      = ([Tx.read_holding_registers 275 1 65], (client 275 : ℚ) / 10) :=
  ⟨rfl, rfl⟩

/-- Witness for C6 at the concrete register state holding 123
everywhere. -/
theorem C6_width_decode_witness :
    RG.get_width (fun _ => 123)
      = ([Tx.read_holding_registers 267 1 65], (123 : ℚ) / 10)
    ∧ RG.get_width_with_offset (fun _ => 123)
      = ([Tx.read_holding_registers 275 1 65], (123 : ℚ) / 10) :=
  C6_width_decode (fun _ => 123) (by norm_num) (by norm_num)

/-- C7: for every gripper string other than rg2/rg6, `__init__` raises
nothing: it prints a message and returns early, with the client attribute
set but `gripper`/`max_width`/`max_force` unassigned and the connection
never opened. -/
theorem C7_invalid_gripper_partial_init (g : String)
    (h : g ∉ ["rg2", "rg6"]) :
    RG.init g
      = ({ clientSet := true, gripper := none, max_width := none,
           max_force := none, connectionOpened := false },
         ["Please specify either rg2 or rg6."]) := by
  simp [RG.init, h]

/-- Witness for C7 at the concrete gripper string rg3. -/
theorem C7_invalid_gripper_partial_init_witness :
    RG.init "rg3"
      = ({ clientSet := true, gripper := none, max_width := none,
           max_force := none, connectionOpened := false },
         ["Please specify either rg2 or rg6."]) :=
  C7_invalid_gripper_partial_init "rg3" (by decide)

lemma RG.get_status_snd (client : Nat → Nat) :
    (RG.get_status client).2
      = [bit (client 268) 0, bit (client 268) 1, bit (client 268) 2,
         bit (client 268) 3, bit (client 268) 4, bit (client 268) 5,
         bit (client 268) 6] :=
  RG.decode_status_bit (client 268)

/-- C2: for every 16-bit value read from register 268, `RG.get_status`
issues exactly the one status read and returns the seven flags with flag
`i` equal to bit `i` of the value (so bits 7–15 never appear); at register
value 4 = 0b100 the S1-pushed flag alone is 1. -/
theorem C2_rg_status_bits (client : Nat → Nat) (hv : client 268 ≤ 65535) :
    (RG.get_status client).1 = [Tx.read_holding_registers 268 1 65]
    ∧ (RG.get_status client).2
      = [bit (client 268) 0, bit (client 268) 1, bit (client 268) 2,
         bit (client 268) 3, bit (client 268) 4, bit (client 268) 5,
         bit (client 268) 6]
    ∧ (RG.get_status (fun _ => 4)).2 = [0, 0, 1, 0, 0, 0, 0] :=
  ⟨rfl, RG.get_status_snd client, by decide⟩

/-- Witness for C2 at the concrete status register value 4. -/
theorem C2_rg_status_bits_witness :
    (RG.get_status (fun _ => 4)).1 = [Tx.read_holding_registers 268 1 65]
    ∧ (RG.get_status (fun _ => 4)).2
      = [bit 4 0, bit 4 1, bit 4 2, bit 4 3, bit 4 4, bit 4 5, bit 4 6]
    ∧ (RG.get_status (fun _ => 4)).2 = [0, 0, 1, 0, 0, 0, 0] :=
  C2_rg_status_bits (fun _ => 4) (by norm_num)

/-- C9: for every 16-bit status register value, `RG.get_status` returns a
list of exactly 7 entries, each 0 or 1, and two values agreeing on bits 0–6
yield identical flag lists. -/
theorem C9_status_seven_binary (c1 c2 : Nat → Nat)
    (h1 : c1 268 ≤ 65535) (h2 : c2 268 ≤ 65535)
    (hagree : ∀ i < 7, bit (c1 268) i = bit (c2 268) i) :
    (RG.get_status c1).2.length = 7
    ∧ (∀ x ∈ (RG.get_status c1).2, x = 0 ∨ x = 1)
    ∧ (RG.get_status c1).2 = (RG.get_status c2).2 := by
  refine ⟨?_, ?_, ?_⟩
  · rw [RG.get_status_snd]
    rfl
  · intro x hx
    rw [RG.get_status_snd] at hx
    simp only [List.mem_cons, List.not_mem_nil, or_false] at hx
    have hlt : x < 2 := by
      rcases hx with rfl | rfl | rfl | rfl | rfl | rfl | rfl <;> exact bit_lt_two _ _
    omega
  · rw [RG.get_status_snd, RG.get_status_snd,
      hagree 0 (by norm_num), hagree 1 (by norm_num), hagree 2 (by norm_num),
      hagree 3 (by norm_num), hagree 4 (by norm_num), hagree 5 (by norm_num),
      hagree 6 (by norm_num)]

/-- Witness for C9 at register values 5 and 65413, which agree on bits
0–6 (both are 5 mod 128) but differ on the reserved high bits. -/
theorem C9_status_seven_binary_witness :
    (RG.get_status (fun _ => 5)).2.length = 7
    ∧ (∀ x ∈ (RG.get_status (fun _ => 5)).2, x = 0 ∨ x = 1)
    ∧ (RG.get_status (fun _ => 5)).2 = (RG.get_status (fun _ => 65413)).2 :=
  C9_status_seven_binary (fun _ => 5) (fun _ => 65413) (by norm_num) (by norm_num)
    (by intro i hi; interval_cases i <;> rfl)

lemma demo.decode_status_cases : ∀ b0 < 2, ∀ b1 < 2, ∀ b2 < 2, ∀ b3 < 2,
    ∀ b4 < 2, ∀ b5 < 2, ∀ b6 < 2,
    (demo.decode_status b0 b1 b2 b3 b4 b5 b6).count 1 ≤ 1
    ∧ (b0 = 1 → demo.decode_status b0 b1 b2 b3 b4 b5 b6 = [1, 0, 0, 0, 0, 0, 0])
    ∧ (∀ i < 7, [b0, b1, b2, b3, b4, b5, b6].getD i 0 = 1 →
        (∀ j < i, [b0, b1, b2, b3, b4, b5, b6].getD j 0 = 0) →
        demo.decode_status b0 b1 b2 b3 b4 b5 b6
          = List.set [0, 0, 0, 0, 0, 0, 0] i 1) := by
  intro b0 hb0 b1 hb1 b2 hb2 b3 hb3 b4 hb4 b5 hb5 b6 hb6
  interval_cases b0 <;> interval_cases b1 <;> interval_cases b2 <;>
    interval_cases b3 <;> interval_cases b4 <;> interval_cases b5 <;>
    interval_cases b6 <;> exact ⟨by decide, by decide, by decide⟩

/-- C10: the demo module's `get_status` sets at most one flag: its `elif`
chain reports only the lowest-indexed set bit among bits 0–6, and whenever
the busy bit 0 is set the result is the busy-only list regardless of the
other bits. -/
theorem C10_demo_lowest_flag (v : Nat) :
    (demo.get_status (fun _ => v)).2.count 1 ≤ 1
    ∧ (bit v 0 = 1 → (demo.get_status (fun _ => v)).2 = [1, 0, 0, 0, 0, 0, 0])
    ∧ (∀ i < 7, bit v i = 1 → (∀ j < i, bit v j = 0) →
        (demo.get_status (fun _ => v)).2 = List.set [0, 0, 0, 0, 0, 0, 0] i 1) := by
  have h := demo.decode_status_cases (bit v 0) (bit_lt_two v 0)
    (bit v 1) (bit_lt_two v 1) (bit v 2) (bit_lt_two v 2)
    (bit v 3) (bit_lt_two v 3) (bit v 4) (bit_lt_two v 4)
    (bit v 5) (bit_lt_two v 5) (bit v 6) (bit_lt_two v 6)
  refine ⟨h.1, h.2.1, ?_⟩
  intro i hi hbi hlow
  exact h.2.2 i hi (by rw [bits_getD v i hi]; exact hbi)
    (fun j hj => by rw [bits_getD v j (hj.trans hi)]; exact hlow j hj)

/-- Witness for C10: at register value 7 (bits 0, 1, 2 all set) only the
busy flag is reported; at value 12 (bits 2, 3 set) only S1-pushed. -/
theorem C10_demo_lowest_flag_witness :
    (demo.get_status (fun _ => 7)).2 = [1, 0, 0, 0, 0, 0, 0]
    ∧ (demo.get_status (fun _ => 12)).2 = List.set [0, 0, 0, 0, 0, 0, 0] 2 1 :=
  ⟨(C10_demo_lowest_flag 7).2.1 (by decide),
   (C10_demo_lowest_flag 12).2.2 2 (by norm_num) (by decide)
     (by intro j hj; interval_cases j <;> rfl)⟩

/-- C4 counterexample: the claim says `set_target_width(w)` issues exactly
one Modbus transaction and leaves control register 2 unwritten, but the demo
module's `set_target_width` (cited by the claim) at w = 1600 issues two
writes, the second of which writes 16 to control register 2. -/
theorem C4_single_write_counterexample :
    demo.set_target_width 1600
      = [Tx.write_register 1 1600 65, Tx.write_register 2 16 65]
    ∧ (demo.set_target_width 1600).length ≠ 1
    ∧ Tx.write_register 2 16 65 ∈ demo.set_target_width 1600 :=
  ⟨rfl, by decide, by decide⟩

/-- C4 amended: `RG.set_target_width(w)` issues exactly one write, to
register 1 only, and `RG.set_target_force(f)` exactly one write, to
register 0 only; the demo module's variants each issue two writes — the
target register followed by control register 2 with value 16. -/
theorem C4_target_writes_amended (w f : Nat) :
    RG.set_target_width w = [Tx.write_register 1 w 65]
    ∧ RG.set_target_force f = [Tx.write_register 0 f 65]
    ∧ demo.set_target_width w
      = [Tx.write_register 1 w 65, Tx.write_register 2 16 65]
    ∧ demo.set_target_force f
      = [Tx.write_register 0 f 65, Tx.write_register 2 16 65] :=
  ⟨rfl, rfl, rfl, rfl⟩

/-- C5 counterexample: starting from the all-zero register state,
`set_target_width(1600)` followed by `set_control_mode(16)` leaves force
register 0 at 0, while `move_gripper(1600, 400)` sets it to 400, so the two
are not observationally equivalent on the register state. -/
theorem C5_pair_vs_move_counterexample :
    applyTrace (fun _ => 0) (RG.set_target_width 1600 ++ RG.set_control_mode 16) 0
      ≠ applyTrace (fun _ => 0) (RG.move_gripper 1600 400) 0 := by
  decide

/-- C5 amended: `set_target_width(w)` followed by `set_control_mode(16)`
has the same effect as `move_gripper(w, f)` on every register other than
force register 0, and is fully equivalent exactly when register 0 already
holds `f`; the pair never writes the force register. -/
theorem C5_pair_vs_move_amended (w f : Nat) (s : Nat → Nat) :
    (∀ r, r ≠ 0 →
      applyTrace s (RG.set_target_width w ++ RG.set_control_mode 16) r
        = applyTrace s (RG.move_gripper w f) r)
    ∧ (s 0 = f → ∀ r,
      applyTrace s (RG.set_target_width w ++ RG.set_control_mode 16) r
        = applyTrace s (RG.move_gripper w f) r) := by
  constructor
  · intro r hr
    rcases r with _ | r
    · exact absurd rfl hr
    rcases r with _ | r
    · rfl
    rcases r with _ | r
    · rfl
    · rfl
  · intro hf r
    rcases r with _ | r
    · exact hf
    rcases r with _ | r
    · rfl
    rcases r with _ | r
    · rfl
    · rfl

/-- Witness for C5 amended at w = 1600, f = 400 and the constant-400
register state (where register 0 already holds the force). -/
theorem C5_pair_vs_move_amended_witness :
    applyTrace (fun _ => 400) (RG.set_target_width 1600 ++ RG.set_control_mode 16) 0
      = applyTrace (fun _ => 400) (RG.move_gripper 1600 400) 0
    ∧ applyTrace (fun _ => 400) (RG.set_target_width 1600 ++ RG.set_control_mode 16) 1
      = applyTrace (fun _ => 400) (RG.move_gripper 1600 400) 1 :=
  ⟨(C5_pair_vs_move_amended 1600 400 (fun _ => 400)).2 rfl 0,
   (C5_pair_vs_move_amended 1600 400 (fun _ => 400)).1 1 (by norm_num)⟩

lemma demo.decode_status_busy_zero : ∀ b0 < 2, ∀ b1 < 2, ∀ b2 < 2, ∀ b3 < 2,
    ∀ b4 < 2, ∀ b5 < 2, ∀ b6 < 2,
    b0 = 0 → (demo.decode_status b0 b1 b2 b3 b4 b5 b6).getD 0 0 = 0 := by
  intro b0 hb0 b1 hb1 b2 hb2 b3 hb3 b4 hb4 b5 hb5 b6 hb6
  interval_cases b0 <;> interval_cases b1 <;> interval_cases b2 <;>
    interval_cases b3 <;> interval_cases b4 <;> interval_cases b5 <;>
    interval_cases b6 <;> decide

/-- C8 counterexample: running the demo against a register state whose
status register is 0 (busy clear), `run_demo` issues its two motion
commands (two control writes) with only a single status read in the whole
trace — the one performed before any motion command — and waits with one
`time.sleep(1.0)`; no 500 ms sleep and no status poll separates the two
motion commands, refuting the claimed poll-until-idle loop. -/
theorem C8_no_poll_counterexample :
    (demo.run_demo (fun _ => 0)).count (Tx.read_holding_registers 268 1 65) = 1
    ∧ (demo.run_demo (fun _ => 0)).count (Tx.write_register 2 16 65) = 2
    ∧ Tx.sleep (1 / 2) ∉ demo.run_demo (fun _ => 0)
    ∧ Tx.sleep 1 ∈ demo.run_demo (fun _ => 0) := by
  have htrace : demo.run_demo (fun _ => 0)
      = [Tx.read_holding_registers 268 1 65,
         Tx.read_holding_registers 275 1 65,
         Tx.write_register 1 1600 65, Tx.write_register 2 16 65,
         Tx.sleep 1,
         Tx.write_register 1 0 65, Tx.write_register 2 16 65,
         Tx.close] := rfl
  refine ⟨by rw [htrace]; decide, by rw [htrace]; decide, ?_, ?_⟩
  · rw [htrace]
    simp [List.mem_cons]
  · rw [htrace]
    simp [List.mem_cons]

/-- C8 amended: when the status register's busy bit is 0, `run_demo` reads
status once, reads the width with offset, commands width 1600, sleeps a
fixed 1.0 s without any status polling, commands width 0, and closes; the
trace contains exactly one status read and no 500 ms sleep. -/
theorem C8_run_demo_trace (client : Nat → Nat)
    (hbusy : bit (client 268) 0 = 0) :
    demo.run_demo client
      = [Tx.read_holding_registers 268 1 65,
         Tx.read_holding_registers 275 1 65,
         Tx.write_register 1 1600 65, Tx.write_register 2 16 65,
         Tx.sleep 1,
         Tx.write_register 1 0 65, Tx.write_register 2 16 65,
         Tx.close]
    ∧ (demo.run_demo client).count (Tx.read_holding_registers 268 1 65) = 1
    ∧ Tx.sleep (1 / 2) ∉ demo.run_demo client := by
  have hguard : (demo.get_status client).2.getD 0 0 = 0 := by
    show (demo.decode_status (bit (client 268) 0) (bit (client 268) 1)
      (bit (client 268) 2) (bit (client 268) 3) (bit (client 268) 4)
      (bit (client 268) 5) (bit (client 268) 6)).getD 0 0 = 0
    exact demo.decode_status_busy_zero _ (bit_lt_two _ 0) _ (bit_lt_two _ 1)
      _ (bit_lt_two _ 2) _ (bit_lt_two _ 3) _ (bit_lt_two _ 4)
      _ (bit_lt_two _ 5) _ (bit_lt_two _ 6) hbusy
  have htrace : demo.run_demo client
      = [Tx.read_holding_registers 268 1 65,
         Tx.read_holding_registers 275 1 65,
         Tx.write_register 1 1600 65, Tx.write_register 2 16 65,
         Tx.sleep 1,
         Tx.write_register 1 0 65, Tx.write_register 2 16 65,
         Tx.close] := by
    simp only [demo.run_demo]
    rw [if_pos hguard]
    rfl
  refine ⟨htrace, ?_, ?_⟩
  · rw [htrace]
    decide
  · rw [htrace]
    simp [List.mem_cons]

/-- Witness for C8 amended at the all-zero register state. -/
theorem C8_run_demo_trace_witness :
    demo.run_demo (fun _ => 0)
      = [Tx.read_holding_registers 268 1 65,
         Tx.read_holding_registers 275 1 65,
         Tx.write_register 1 1600 65, Tx.write_register 2 16 65,
         Tx.sleep 1,
         Tx.write_register 1 0 65, Tx.write_register 2 16 65,
         Tx.close]
    ∧ (demo.run_demo (fun _ => 0)).count (Tx.read_holding_registers 268 1 65) = 1
    ∧ Tx.sleep (1 / 2) ∉ demo.run_demo (fun _ => 0) :=
  C8_run_demo_trace (fun _ => 0) rfl
